import Mathlib

/-!
Verification of the change-driven event monitor and readiness poller of
`flux_reconcile` (package `pkg/events`, file `monitor.go`).

The embedding is shallow: the Go functions `checkEvents`,
`checkResourceReady` and `WaitForReady` from `src/pkg/events/monitor.go`
become pure Lean functions.  Network calls (the event list and the dynamic
`Get`) are passed in as explicit `Except` results; the polling loop of
`WaitForReady` consumes an explicit list of observations, one per firing of
the Go `select` (either the cancellation channel or the ticker).
-/

/-!  ## Unstructured documents

A status document in the Go code is a `map[string]interface{}` as produced
by the dynamic client.  `GoVal` models the runtime values such a document
can hold: strings, numbers, booleans, null, slices and nested maps.  A Go
map is modelled as an association list; Go maps have unique keys, and
`lookupField` returns the first binding, which coincides with map lookup on
any list without duplicate keys. -/

inductive GoVal where
  | str (s : String)
  | num (n : Int)
  | boolean (b : Bool)
  | null
  | arr (items : List GoVal)
  | obj (fields : List (String × GoVal))

def lookupField (fields : List (String × GoVal)) (key : String) : Option GoVal :=
  match fields with
  | [] => none
  | (k, v) :: rest => if k = key then some v else lookupField rest key

/-- Model of `unstructured.NestedMap(obj, field)` from k8s apimachinery, as
used by `checkResourceReady`.  The Go helper returns `(m, found, err)`:
missing key gives `(nil, false, nil)`, a present non-map value gives
`(nil, false, err)`, a present map gives `(copy, true, nil)`.  The caller
only distinguishes the three outcomes error / not-found / found-map, which
we encode as `Except Unit (Option _)`. -/
def NestedMap (object : List (String × GoVal)) (field : String) :
    Except Unit (Option (List (String × GoVal))) :=
  match lookupField object field with
  | none => .ok none
  | some (GoVal.obj m) => .ok (some m)
  | some _ => .error ()

/-- Model of `unstructured.NestedSlice(obj, field)`: same shape as
`NestedMap` but expecting a `[]interface{}` value. -/
def NestedSlice (object : List (String × GoVal)) (field : String) :
    Except Unit (Option (List GoVal)) :=
  match lookupField object field with
  | none => .ok none
  | some (GoVal.arr items) => .ok (some items)
  | some _ => .error ()

/-- Model of `unstructured.NestedString(m, field)` as used in
`checkResourceReady`, where the Go code discards the `found` and `err`
results (`condType, _, _ := ...`): a missing key or a non-string value
leaves the zero value `""`. -/
def NestedString (m : List (String × GoVal)) (field : String) : String :=
  match lookupField m field with
  | some (GoVal.str s) => s
  | _ => ""

/-- The loop over `conditions` inside `checkResourceReady`: non-map entries
are skipped (`condMap, ok := cond.(map[string]interface{}); if !ok
{ continue }`), and the function returns `true` at the first entry whose
`type` is `"Ready"` and whose `status` is `"True"`. -/
def scanConditions : List GoVal → Bool
  | [] => false
  | c :: rest =>
    match c with
    | GoVal.obj condMap =>
      if NestedString condMap "type" == "Ready" && NestedString condMap "status" == "True" then
        true
      else
        scanConditions rest
    | _ => scanConditions rest

/-- `Monitor.checkResourceReady` from `monitor.go`, with the dynamic-client
`Get` result passed in explicitly (`.error ()` models a failed fetch).
Returns `.error ()` exactly when the Go function returns a non-nil error,
and `.ok b` when it returns `(b, nil)`. -/
def checkResourceReady (fetched : Except Unit (List (String × GoVal))) : Except Unit Bool :=
  match fetched with
  | .error e => .error e
  | .ok objMap =>
    match NestedMap objMap "status" with
    | .error e => .error e
    | .ok none => .ok false
    | .ok (some status) =>
      match NestedSlice status "conditions" with
      | .error e => .error e
      | .ok none => .ok false
      | .ok (some conds) => .ok (scanConditions conds)

/-- Spec-side predicate on a single condition entry, following the spec's
words: a map entry whose `type` field equals `"Ready"` and whose `status`
field equals `"True"`.  Used as the refinement comparator for the code's
scan. -/
def specEntryReady (c : GoVal) : Bool :=
  match c with
  | GoVal.obj m =>
    (match lookupField m "type" with
     | some (GoVal.str t) => t == "Ready"
     | _ => false) &&
    (match lookupField m "status" with
     | some (GoVal.str s) => s == "True"
     | _ => false)
  | _ => false

/-- Spec-side readiness predicate, following the spec's words: true iff the
document's `status.conditions` sequence contains a map entry with type
`"Ready"` and status `"True"`. -/
def specHasReadyCondition (objMap : List (String × GoVal)) : Bool :=
  match lookupField objMap "status" with
  | some (GoVal.obj status) =>
    match lookupField status "conditions" with
    | some (GoVal.arr conds) => conds.any specEntryReady
    | _ => false
  | _ => false

/-!  ## Events and the Change-Detector -/

/-- The fields of a `corev1.Event` that `checkEvents` reads: `Reason`,
`Type` (the severity, `"Normal"` or `"Warning"`) and `Message`. -/
structure Event where
  reason : String
  type : String
  message : String
deriving DecidableEq, Repr

/-- `corev1.EventTypeWarning`. -/
def EventTypeWarning : String := "Warning"

/-- One event's contribution to the hash:
`fmt.Sprintf("%s:%s:%s", evt.Reason, evt.Type, evt.Message)`. -/
def eventFingerprint (e : Event) : String :=
  e.reason ++ ":" ++ e.type ++ ":" ++ e.message

/-- The hash built by `checkEvents`: the loop runs `i` from `len-1` down
while `i >= len-3`, so it concatenates the fingerprints of the last (most
recent) up-to-3 events, newest first.  Events are listed in backend order;
the code treats the last element as the most recent. -/
def eventsHash (items : List Event) : String :=
  String.join (((items.reverse).take 3).map eventFingerprint)

/-- A formatted notification as passed to `output.PrintEvent`. -/
structure Notification where
  reason : String
  message : String
  isWarning : Bool
deriving DecidableEq, Repr

/-- The warning flag computed inline in `checkEvents`:
`evt.Type == corev1.EventTypeWarning || evt.Reason == "HealthCheckFailed"
|| evt.Reason == "DependencyNotReady"`. -/
def isWarningEvent (e : Event) : Bool :=
  e.type == EventTypeWarning || e.reason == "HealthCheckFailed" ||
    e.reason == "DependencyNotReady"

def mkNotification (e : Event) : Notification :=
  ⟨e.reason, e.message, isWarningEvent e⟩

/-- The mutable state of the monitor session that `checkEvents` touches:
the mutex-protected `lastHash` field (Go zero value `""`). -/
structure MonitorState where
  lastHash : String
deriving DecidableEq, Repr

/-- `Monitor.checkEvents` from `monitor.go`, with the event-list call
passed in explicitly (`.error ()` models a failed `Events().List`).
Returns the new session state and the notifications emitted, newest first
(`shown` stops at 2).  An error or an empty list returns early; otherwise
the hash of the last ≤3 events is compared with `lastHash` under the
mutex, and on change the state is updated and the 2 most recent events are
emitted. -/
def checkEvents (st : MonitorState) (listed : Except Unit (List Event)) :
    MonitorState × List Notification :=
  match listed with
  | .error _ => (st, [])
  | .ok items =>
    if items.isEmpty then (st, [])
    else
      if eventsHash items ≠ st.lastHash then
        (⟨eventsHash items⟩, ((items.reverse).take 2).map mkNotification)
      else
        (st, [])

/-!  ## The readiness poller -/

/-- `schema.GroupVersionResource`. -/
structure GVR where
  group : String
  version : String
  resource : String
deriving DecidableEq, Repr

/-- The kind switch at the top of `WaitForReady`, written as the same
four-way dispatch (the Go `switch` has a combined `case "source",
"gitrepository"` and a `default` returning the unsupported-kind error). -/
def resolveGVR (kind : String) : Option GVR :=
  if kind = "kustomization" then
    some ⟨"kustomize.toolkit.fluxcd.io", "v1", "kustomizations"⟩
  else if kind = "helmrelease" then
    some ⟨"helm.toolkit.fluxcd.io", "v2beta1", "helmreleases"⟩
  else if kind = "source" ∨ kind = "gitrepository" then
    some ⟨"source.toolkit.fluxcd.io", "v1", "gitrepositories"⟩
  else
    none

/-- One firing of the `select` in `WaitForReady`'s loop: either the
context's done channel is observed (`ctxDone`), or the ticker fires
(`tick`), carrying whether `time.Now().After(deadline)` holds at that
moment and the result of the status fetch the iteration would perform. -/
inductive Obs where
  | ctxDone
  | tick (afterDeadline : Bool) (fetched : Except Unit (List (String × GoVal)))

/-- Outcomes of `WaitForReady`: `success` is the `nil` return, `cancelled`
is `ctx.Err()` of a cancelled context (`context.Canceled`), `timeout` is
the `"timeout waiting for ..."` error, `unsupportedKind` the
`"unsupported resource kind ..."` error. -/
inductive WaitOutcome where
  | success
  | cancelled
  | timeout
  | unsupportedKind
deriving DecidableEq, Repr

/-- The polling loop of `WaitForReady`, run over a finite observation
trace; also counts status fetches performed.  `(none, n)` means the trace
ended with the loop still running after `n` fetches.  On a tick the
deadline is checked first; a fetch/parse error means `continue`; `ready`
returns success. -/
def waitLoopRun : List Obs → Option WaitOutcome × Nat
  | [] => (none, 0)
  | Obs.ctxDone :: _ => (some WaitOutcome.cancelled, 0)
  | Obs.tick afterDeadline fetched :: rest =>
    if afterDeadline then (some WaitOutcome.timeout, 0)
    else
      match checkResourceReady fetched with
      | .ok true => (some WaitOutcome.success, 1)
      | .ok false => ((waitLoopRun rest).1, (waitLoopRun rest).2 + 1)
      | .error _ => ((waitLoopRun rest).1, (waitLoopRun rest).2 + 1)

/-- `Monitor.WaitForReady` from `monitor.go`: resolve the kind first
(returning the unsupported-kind error before the loop ever runs, hence
before any observation is consumed and with zero fetches), then run the
polling loop. -/
def WaitForReady (kind : String) (obs : List Obs) : Option WaitOutcome × Nat :=
  match resolveGVR kind with
  | none => (some WaitOutcome.unsupportedKind, 0)
  | some _ => waitLoopRun obs

/-!  ## Helper lemmas -/

lemma NestedString_beq (m : List (String × GoVal)) (k target : String)
    (h : ("" == target) = false) :
    (NestedString m k == target) =
      (match lookupField m k with
       | some (GoVal.str t) => t == target
       | _ => false) := by
  unfold NestedString
  cases hl : lookupField m k with
  | none => simp [h]
  | some v => cases v <;> simp [h]

lemma scanConditions_eq_any (l : List GoVal) :
    scanConditions l = l.any specEntryReady := by
  induction l with
  | nil => rfl
  | cons c rest ih =>
    cases c with
    | obj m =>
      have hentry :
          (NestedString m "type" == "Ready" && NestedString m "status" == "True") =
            specEntryReady (GoVal.obj m) := by
        rw [NestedString_beq m "type" "Ready" (by decide),
          NestedString_beq m "status" "True" (by decide)]
        rfl
      simp only [scanConditions, List.any_cons, ← ih, hentry]
      cases hs : specEntryReady (GoVal.obj m) <;> simp [hs]
    | str s => simp [scanConditions, List.any_cons, specEntryReady, ih]
    | num n => simp [scanConditions, List.any_cons, specEntryReady, ih]
    | boolean b => simp [scanConditions, List.any_cons, specEntryReady, ih]
    | null => simp [scanConditions, List.any_cons, specEntryReady, ih]
    | arr xs => simp [scanConditions, List.any_cons, specEntryReady, ih]

/-!  ## Claims about the readiness check -/

/-- Claim C1: for every status document, the readiness check yields
ready=true if and only if the document's `status.conditions` sequence
contains a map entry whose `type` field equals `"Ready"` and whose
`status` field equals `"True"`; the scan decides at the first such entry
(the head of the list is consulted before the tail, with no precedence
among multiple Ready-typed entries beyond first-found). -/
theorem readiness_true_iff_ready_condition :
    (∀ (objMap : List (String × GoVal)),
      checkResourceReady (Except.ok objMap) = Except.ok true ↔
        specHasReadyCondition objMap = true) ∧
    (∀ (c : GoVal) (rest : List GoVal),
      scanConditions (c :: rest) = (specEntryReady c || scanConditions rest)) := by
  constructor
  · intro objMap
    cases hl : lookupField objMap "status" with
    | none =>
      simp [checkResourceReady, NestedMap, specHasReadyCondition, hl]
    | some v =>
      cases v with
      | obj status =>
        cases hc : lookupField status "conditions" with
        | none =>
          simp [checkResourceReady, NestedMap, NestedSlice, specHasReadyCondition, hl, hc]
        | some w =>
          cases w <;>
            simp [checkResourceReady, NestedMap, NestedSlice, specHasReadyCondition, hl, hc,
              scanConditions_eq_any]
      | str s => simp [checkResourceReady, NestedMap, specHasReadyCondition, hl]
      | num n => simp [checkResourceReady, NestedMap, specHasReadyCondition, hl]
      | boolean b => simp [checkResourceReady, NestedMap, specHasReadyCondition, hl]
      | null => simp [checkResourceReady, NestedMap, specHasReadyCondition, hl]
      | arr xs => simp [checkResourceReady, NestedMap, specHasReadyCondition, hl]
  · intro c rest
    rw [scanConditions_eq_any, List.any_cons, scanConditions_eq_any]

/-- Claim C2, counterexample: the claim as stated fails on the code in two
ways.  A document whose `status` key holds a non-map value has a missing
`conditions` key, yet the check returns an error (apimachinery `NestedMap`
reports a type-mismatch error); and a document with a non-map entry inside
`conditions` next to a Ready/True map entry is reported ready, not "not
ready yet". -/
theorem nonmap_status_and_entry_cex :
    checkResourceReady (Except.ok [("status", GoVal.str "pending")]) = Except.error () ∧
    checkResourceReady (Except.ok [("status", GoVal.obj [("conditions",
        GoVal.arr [GoVal.num 42,
          GoVal.obj [("type", GoVal.str "Ready"), ("status", GoVal.str "True")]])])]) =
      Except.ok true := by
  exact ⟨rfl, rfl⟩

/-- Claim C2, amended: a missing `status` key, or a missing `conditions`
key under a map-valued `status`, yields not-ready with no error; a non-map
entry inside `conditions` is skipped (it neither errors nor contributes
readiness), so a document whose conditions contain no map entry with type
`"Ready"` and status `"True"` yields not-ready with no error. -/
theorem missing_keys_not_ready_no_error :
    (∀ (objMap : List (String × GoVal)), lookupField objMap "status" = none →
      checkResourceReady (Except.ok objMap) = Except.ok false) ∧
    (∀ (objMap status : List (String × GoVal)),
      lookupField objMap "status" = some (GoVal.obj status) →
      lookupField status "conditions" = none →
      checkResourceReady (Except.ok objMap) = Except.ok false) ∧
    (∀ (c : GoVal) (rest : List GoVal), (∀ m, c ≠ GoVal.obj m) →
      scanConditions (c :: rest) = scanConditions rest) ∧
    (∀ (objMap status : List (String × GoVal)) (conds : List GoVal),
      lookupField objMap "status" = some (GoVal.obj status) →
      lookupField status "conditions" = some (GoVal.arr conds) →
      conds.any specEntryReady = false →
      checkResourceReady (Except.ok objMap) = Except.ok false) := by
  refine ⟨?_, ?_, ?_, ?_⟩
  · intro objMap hl
    simp [checkResourceReady, NestedMap, hl]
  · intro objMap status hl hc
    simp [checkResourceReady, NestedMap, NestedSlice, hl, hc]
  · intro c rest hnm
    cases c with
    | obj m => exact absurd rfl (hnm m)
    | str s => rfl
    | num n => rfl
    | boolean b => rfl
    | null => rfl
    | arr xs => rfl
  · intro objMap status conds hl hc hany
    simp [checkResourceReady, NestedMap, NestedSlice, hl, hc, scanConditions_eq_any, hany]

/-- Claim C2, witness: the amended statement evaluated at concrete
documents, one per conjunct. -/
theorem missing_keys_not_ready_no_error_witness :
    checkResourceReady (Except.ok ([] : List (String × GoVal))) = Except.ok false ∧
    checkResourceReady (Except.ok [("status", GoVal.obj [])]) = Except.ok false ∧
    scanConditions [GoVal.str "junk"] = scanConditions [] ∧
    checkResourceReady (Except.ok [("status", GoVal.obj [("conditions",
        GoVal.arr [GoVal.str "junk"])])]) = Except.ok false := by
  refine ⟨?_, ?_, ?_, ?_⟩
  · exact missing_keys_not_ready_no_error.1 [] rfl
  · exact missing_keys_not_ready_no_error.2.1 [("status", GoVal.obj [])] [] rfl rfl
  · exact missing_keys_not_ready_no_error.2.2.1 (GoVal.str "junk") []
      (fun m h => GoVal.noConfusion h)
  · exact missing_keys_not_ready_no_error.2.2.2
      [("status", GoVal.obj [("conditions", GoVal.arr [GoVal.str "junk"])])]
      [("conditions", GoVal.arr [GoVal.str "junk"])] [GoVal.str "junk"] rfl rfl rfl

/-!  ## Claims about the Change-Detector -/

lemma checkEvents_fst_lastHash (st : MonitorState) (items : List Event) (h : items ≠ []) :
    ((checkEvents st (Except.ok items)).1).lastHash = eventsHash items := by
  have hne : items.isEmpty = false := by simp [h]
  by_cases hh : eventsHash items = st.lastHash
  · simp [checkEvents, hne, hh]
  · simp [checkEvents, hne, hh]

/-- Claim C3: a second poll whose event-list result is identical in
(reason, severity, message) content to the previous poll emits nothing:
the recomputed fingerprint equals the stored one, so no notification is
produced and the stored fingerprint is unchanged. -/
theorem identical_content_second_poll_silent :
    ∀ (st : MonitorState) (listed : Except Unit (List Event)),
      checkEvents (checkEvents st listed).1 listed = ((checkEvents st listed).1, []) := by
  intro st listed
  cases listed with
  | error e => simp [checkEvents]
  | ok items =>
    by_cases he : items.isEmpty
    · simp [checkEvents, he]
    · by_cases hh : eventsHash items = st.lastHash
      · simp [checkEvents, he, hh]
      · simp [checkEvents, he, hh]

/-- Claim C8: the Change-Detector never fails its caller — on an
event-source error or an empty event list it emits nothing and leaves the
stored fingerprint unchanged. -/
theorem best_effort_never_fails_caller :
    ∀ (st : MonitorState),
      checkEvents st (Except.error ()) = (st, []) ∧
      checkEvents st (Except.ok []) = (st, []) := by
  intro st
  exact ⟨rfl, rfl⟩

/-- Claim C7: whenever the fingerprint changes, the Change-Detector stores
the new fingerprint and emits exactly `min 2 (number of events)`
notifications, taken from the most recent events iterating newest toward
oldest, so the shown pair is ordered newest-first. -/
theorem changed_fingerprint_emits_newest_two :
    ∀ (st : MonitorState) (items : List Event),
      items ≠ [] → eventsHash items ≠ st.lastHash →
      checkEvents st (Except.ok items) =
        (⟨eventsHash items⟩, ((items.reverse).take 2).map mkNotification) ∧
      (checkEvents st (Except.ok items)).2.length = min 2 items.length := by
  intro st items h hh
  have hne : items.isEmpty = false := by simp [h]
  constructor
  · simp [checkEvents, hne, hh]
  · simp [checkEvents, hne, hh, List.length_take, List.length_map, List.length_reverse]

/-- Claim C7, witness: three fresh events against an empty stored
fingerprint emit the two newest, newest first. -/
theorem changed_fingerprint_emits_newest_two_witness :
    checkEvents ⟨""⟩ (Except.ok [Event.mk "Progressing" "Normal" "m1",
        Event.mk "HealthCheckFailed" "Normal" "m2", Event.mk "ReconciliationSucceeded" "Normal" "m3"]) =
      (⟨eventsHash [Event.mk "Progressing" "Normal" "m1",
          Event.mk "HealthCheckFailed" "Normal" "m2",
          Event.mk "ReconciliationSucceeded" "Normal" "m3"]⟩,
        (([Event.mk "Progressing" "Normal" "m1", Event.mk "HealthCheckFailed" "Normal" "m2",
            Event.mk "ReconciliationSucceeded" "Normal" "m3"].reverse).take 2).map mkNotification) ∧
    (checkEvents ⟨""⟩ (Except.ok [Event.mk "Progressing" "Normal" "m1",
        Event.mk "HealthCheckFailed" "Normal" "m2",
        Event.mk "ReconciliationSucceeded" "Normal" "m3"])).2.length =
      min 2 [Event.mk "Progressing" "Normal" "m1", Event.mk "HealthCheckFailed" "Normal" "m2",
        Event.mk "ReconciliationSucceeded" "Normal" "m3"].length :=
  changed_fingerprint_emits_newest_two ⟨""⟩
    [Event.mk "Progressing" "Normal" "m1", Event.mk "HealthCheckFailed" "Normal" "m2",
      Event.mk "ReconciliationSucceeded" "Normal" "m3"] (by decide) (by decide)

/-- Claim C4, counterexample: the fingerprint is a plain colon-joined
concatenation, so two single-event sequences that differ in the content of
their last event (a `":"` moved between the severity and the message)
collide, and the second poll emits nothing. -/
theorem fingerprint_collision_cex :
    [Event.mk "Progressing" "Normal" "a:b"] ≠ [Event.mk "Progressing" "Normal:a" "b"] ∧
    ([Event.mk "Progressing" "Normal" "a:b"].reverse).take 3 ≠
      ([Event.mk "Progressing" "Normal:a" "b"].reverse).take 3 ∧
    eventsHash [Event.mk "Progressing" "Normal" "a:b"] =
      eventsHash [Event.mk "Progressing" "Normal:a" "b"] ∧
    (checkEvents (checkEvents ⟨""⟩ (Except.ok [Event.mk "Progressing" "Normal" "a:b"])).1
        (Except.ok [Event.mk "Progressing" "Normal:a" "b"])).2 = [] := by
  exact ⟨by decide, by decide, by decide, by decide⟩

/-- Claim C4, amended: for all pairs of non-empty event sequences whose
computed fingerprints differ, the second poll emits output (and the output
is the newest ≤2 events of the second sequence).  Distinct
(reason, severity, message) content in the last 3 events only guarantees
distinct fingerprints when the colon-joined encodings differ: the
concatenation is not injective, so content changes change the fingerprint
only with high probability, not always. -/
theorem differing_fingerprints_emit :
    ∀ (st : MonitorState) (s1 s2 : List Event),
      s1 ≠ [] → s2 ≠ [] → eventsHash s1 ≠ eventsHash s2 →
      (checkEvents (checkEvents st (Except.ok s1)).1 (Except.ok s2)).2 =
        ((s2.reverse).take 2).map mkNotification ∧
      (checkEvents (checkEvents st (Except.ok s1)).1 (Except.ok s2)).2 ≠ [] := by
  intro st s1 s2 h1 h2 hneq
  have hst : ((checkEvents st (Except.ok s1)).1).lastHash = eventsHash s1 :=
    checkEvents_fst_lastHash st s1 h1
  have hne2 : s2.isEmpty = false := by simp [h2]
  have hdiff : eventsHash s2 ≠ ((checkEvents st (Except.ok s1)).1).lastHash := by
    rw [hst]
    exact fun h => hneq h.symm
  have hemit : (checkEvents (checkEvents st (Except.ok s1)).1 (Except.ok s2)).2 =
      ((s2.reverse).take 2).map mkNotification := by
    generalize (checkEvents st (Except.ok s1)).1 = st1 at hdiff
    simp [checkEvents, hne2, hdiff]
  refine ⟨hemit, ?_⟩
  rw [hemit]
  intro hnil
  have hlen := congrArg List.length hnil
  simp [List.length_take, List.length_map, List.length_reverse] at hlen
  exact h2 hlen

/-- Claim C4 amended, witness: two single-event polls with distinct
fingerprints; the second emits its event. -/
theorem differing_fingerprints_emit_witness :
    (checkEvents (checkEvents ⟨""⟩ (Except.ok [Event.mk "a" "Normal" "m1"])).1
        (Except.ok [Event.mk "b" "Normal" "m2"])).2 =
      (([Event.mk "b" "Normal" "m2"].reverse).take 2).map mkNotification ∧
    (checkEvents (checkEvents ⟨""⟩ (Except.ok [Event.mk "a" "Normal" "m1"])).1
        (Except.ok [Event.mk "b" "Normal" "m2"])).2 ≠ [] :=
  differing_fingerprints_emit ⟨""⟩ [Event.mk "a" "Normal" "m1"] [Event.mk "b" "Normal" "m2"]
    (by decide) (by decide) (by decide)

/-- Claim C6: a notification's isWarning flag is true iff the event's
severity is `"Warning"` or its reason is `"HealthCheckFailed"` or
`"DependencyNotReady"`; every emission of the Change-Detector carries this
flag (it emits either nothing or the newest ≤2 events through
`mkNotification`); in particular reason `"HealthCheckFailed"` with
severity `"Normal"` is flagged isWarning=true. -/
theorem warning_flag_characterisation :
    (∀ (e : Event), (mkNotification e).isWarning = true ↔
      (e.type = EventTypeWarning ∨ e.reason = "HealthCheckFailed" ∨
        e.reason = "DependencyNotReady")) ∧
    (∀ (st : MonitorState) (listed : Except Unit (List Event)),
      (checkEvents st listed).2 = [] ∨
      ∃ items, listed = Except.ok items ∧
        (checkEvents st listed).2 = ((items.reverse).take 2).map mkNotification) ∧
    (mkNotification (Event.mk "HealthCheckFailed" "Normal" "health check failed")).isWarning
      = true := by
  refine ⟨?_, ?_, by decide⟩
  · intro e
    simp [mkNotification, isWarningEvent, EventTypeWarning]
    tauto
  · intro st listed
    cases listed with
    | error e => exact Or.inl rfl
    | ok items =>
      by_cases he : items.isEmpty
      · exact Or.inl (by simp [checkEvents, he])
      · by_cases hh : eventsHash items = st.lastHash
        · exact Or.inl (by simp [checkEvents, he, hh])
        · exact Or.inr ⟨items, rfl, by simp [checkEvents, he, hh]⟩

/-!  ## Claims about the readiness poller -/

lemma waitLoopRun_append_ctxDone (post : List Obs) :
    ∀ (pre : List Obs), (waitLoopRun pre).1 = none →
      (waitLoopRun (pre ++ Obs.ctxDone :: post)).1 = some WaitOutcome.cancelled := by
  intro pre
  induction pre with
  | nil => intro _; rfl
  | cons o rest ih =>
    intro hpre
    cases o with
    | ctxDone => simp [waitLoopRun] at hpre
    | tick afterDeadline fetched =>
      cases afterDeadline with
      | true => simp [waitLoopRun] at hpre
      | false =>
        cases hcr : checkResourceReady fetched with
        | error e =>
          have hpre' : (waitLoopRun rest).1 = none := by
            simpa [waitLoopRun, hcr] using hpre
          simpa [waitLoopRun, hcr] using ih hpre'
        | ok b =>
          cases b with
          | true => simp [waitLoopRun, hcr] at hpre
          | false =>
            have hpre' : (waitLoopRun rest).1 = none := by
              simpa [waitLoopRun, hcr] using hpre
            simpa [waitLoopRun, hcr] using ih hpre'

/-- Claim C9: when the cancellation signal is the first thing observed
after any non-terminating prefix of the wait, the wait returns the
Cancelled outcome — distinct from Timeout — regardless of what follows,
in particular even if subsequent ticks would find the deadline already
passed. -/
theorem cancellation_first_yields_cancelled :
    ∀ (kind : String) (g : GVR), resolveGVR kind = some g →
      ∀ (pre post : List Obs), (waitLoopRun pre).1 = none →
        (WaitForReady kind (pre ++ Obs.ctxDone :: post)).1 = some WaitOutcome.cancelled ∧
        WaitOutcome.cancelled ≠ WaitOutcome.timeout := by
  intro kind g hk pre post hpre
  refine ⟨?_, by decide⟩
  simp only [WaitForReady, hk]
  exact waitLoopRun_append_ctxDone post pre hpre

/-- Claim C9, witness: one inconclusive tick, then cancellation, then a
tick at which the deadline has passed — the outcome is Cancelled. -/
theorem cancellation_first_yields_cancelled_witness :
    (WaitForReady "kustomization"
        ([Obs.tick false (Except.error ())] ++ Obs.ctxDone :: [Obs.tick true (Except.error ())])).1 =
      some WaitOutcome.cancelled ∧
    WaitOutcome.cancelled ≠ WaitOutcome.timeout :=
  cancellation_first_yields_cancelled "kustomization"
    ⟨"kustomize.toolkit.fluxcd.io", "v1", "kustomizations"⟩ rfl
    [Obs.tick false (Except.error ())] [Obs.tick true (Except.error ())] rfl

/-- Claim C5: kind resolution is a total pure function with exactly the
mapping kustomization ↦ kustomizations at kustomize.toolkit.fluxcd.io/v1,
helmrelease ↦ helmreleases at helm.toolkit.fluxcd.io/v2beta1, and both
source and gitrepository ↦ gitrepositories at source.toolkit.fluxcd.io/v1;
every other kind fails immediately with UnsupportedKind and zero status
fetches. -/
theorem kind_resolution_total_and_pure :
    resolveGVR "kustomization" = some ⟨"kustomize.toolkit.fluxcd.io", "v1", "kustomizations"⟩ ∧
    resolveGVR "helmrelease" = some ⟨"helm.toolkit.fluxcd.io", "v2beta1", "helmreleases"⟩ ∧
    resolveGVR "source" = some ⟨"source.toolkit.fluxcd.io", "v1", "gitrepositories"⟩ ∧
    resolveGVR "gitrepository" = some ⟨"source.toolkit.fluxcd.io", "v1", "gitrepositories"⟩ ∧
    ∀ (kind : String),
      kind ∉ ["kustomization", "helmrelease", "source", "gitrepository"] →
      resolveGVR kind = none ∧
      ∀ (obs : List Obs), WaitForReady kind obs = (some WaitOutcome.unsupportedKind, 0) := by
  refine ⟨by decide, by decide, by decide, by decide, ?_⟩
  intro kind hk
  simp only [List.mem_cons, List.mem_singleton, not_or] at hk
  obtain ⟨h1, h2, h3, h4⟩ := hk
  have hres : resolveGVR kind = none := by
    simp [resolveGVR, h1, h2, h3, h4]
  exact ⟨hres, fun obs => by simp [WaitForReady, hres]⟩

/-- Claim C5, witness: the unsupported kind "deployment" fails with
UnsupportedKind and performs zero fetches. -/
theorem kind_resolution_total_and_pure_witness :
    resolveGVR "deployment" = none ∧
    WaitForReady "deployment" [Obs.ctxDone] = (some WaitOutcome.unsupportedKind, 0) := by
  have h := kind_resolution_total_and_pure.2.2.2.2 "deployment" (by decide)
  exact ⟨h.1, h.2 [Obs.ctxDone]⟩

/-- Claim C10: for an unsupported kind the UnsupportedKind error is
returned before the cancellation signal or the deadline is ever consulted:
even when the first observation would be the done channel or a tick with
the deadline already elapsed, the result is UnsupportedKind — not
Cancelled, not Timeout — with zero fetches. -/
theorem unsupported_kind_decided_before_cancel_or_deadline :
    ∀ (kind : String), resolveGVR kind = none →
      ∀ (obs : List Obs) (fetched : Except Unit (List (String × GoVal))),
        WaitForReady kind (Obs.ctxDone :: obs) = (some WaitOutcome.unsupportedKind, 0) ∧
        WaitForReady kind (Obs.tick true fetched :: obs) =
          (some WaitOutcome.unsupportedKind, 0) ∧
        WaitOutcome.unsupportedKind ≠ WaitOutcome.cancelled ∧
        WaitOutcome.unsupportedKind ≠ WaitOutcome.timeout := by
  intro kind hk obs fetched
  refine ⟨?_, ?_, by decide, by decide⟩ <;> simp [WaitForReady, hk]

/-- Claim C10, witness: the unsupported kind "deployment" with an
already-cancelled context, and with an already-elapsed deadline. -/
theorem unsupported_kind_decided_before_cancel_or_deadline_witness :
    WaitForReady "deployment" (Obs.ctxDone :: []) = (some WaitOutcome.unsupportedKind, 0) ∧
    WaitForReady "deployment" (Obs.tick true (Except.error ()) :: []) =
      (some WaitOutcome.unsupportedKind, 0) ∧
    WaitOutcome.unsupportedKind ≠ WaitOutcome.cancelled ∧
    WaitOutcome.unsupportedKind ≠ WaitOutcome.timeout :=
  unsupported_kind_decided_before_cancel_or_deadline "deployment" rfl [] (Except.error ())
